import Mathlib

/-!
Shallow embedding of `src/dynamic_rest/client/client.py` (class `DRESTClient`).

Python strings become `String`; a Python value that may be `None` becomes
`Option String`; Python dicts of strings become association lists; the
`requests` session's header dict becomes an association list updated by
`updateHeader` (mirroring `dict.update` on a single key); the external HTTP
transport (`requests`) is a function parameter from the issued request to a
response; `json.loads` is an external decoder, passed as a parameter.
Python object identity of `DRESTResource` instances is modelled by an
allocation counter carried in the client state.
-/

namespace DynamicRest

/-- A Python `dict` from `str` keys to string-or-None values, as an
association list (the code never stores duplicate keys). -/
abbrev PyDict := List (String × String)

/-- Python `d.get(k)`: `some v` when present, `none` when absent. -/
def dictGet (d : PyDict) (k : String) : Option String :=
  (d.find? (fun p => p.1 == k)).map (fun p => p.2)

/-- Python truthiness of a string-or-None value: `None` and `''` are falsy. -/
def truthy : Option String → Bool
  | none => false
  | some s => !(s == "")

/-- Python truthiness of an optional dict: `None` and `{}` are falsy. -/
def dictTruthy : Option PyDict → Bool
  | none => false
  | some d => !d.isEmpty

/-- `s.startswith(p)`: computed on the character lists (Lean's builtin
`String.startsWith` is defined by well-founded recursion on byte positions
and does not evaluate inside the kernel; this is extensionally the same
predicate). -/
def strStartsWith (s p : String) : Bool :=
  p.data.isPrefixOf s.data

/-- `s.lower()` for the ASCII names used by the client, computed on the
character lists (Lean's builtin `String.toLower` does not evaluate inside
the kernel). -/
def strToLower (s : String) : String :=
  ⟨s.data.map Char.toLower⟩

/-- `headers.update({k: v})` on the session's header dict: replace the value
of `k` when present, otherwise append the pair. -/
def updateHeader (hs : List (String × String)) (k v : String) :
    List (String × String) :=
  if hs.any (fun p => p.1 == k) then
    hs.map (fun p => if p.1 == k then (k, v) else p)
  else
    hs ++ [(k, v)]

/-- Header lookup. -/
def getHeader (hs : List (String × String)) (k : String) : Option String :=
  (hs.find? (fun p => p.1 == k)).map (fun p => p.2)

/-- A `DRESTResource(client, key)` handle: `allocId` models Python object
identity (two resources constructed by distinct constructor calls have
distinct `allocId`s), `name` is the key the resource was bound to. -/
structure DRESTResource where
  allocId : Nat
  name : String
deriving DecidableEq

/-- The mutable state of a `DRESTClient` instance.  Fields `_token` and
`_sessionid` are `none` while the Python attribute has never been assigned
(`some v` after `_use_token(v)` / `_use_sessionid(v)`, where `v` itself may
be Python `None`).  `nextResourceId` is the allocation counter for
`DRESTResource` object identity. -/
structure DRESTClient where
  _host : String
  _version : Option String
  headers : List (String × String)
  _resources : List (String × DRESTResource)
  _scheme : String
  _authenticated : Bool
  _authentication : Option PyDict
  _token : Option (Option String)
  _sessionid : Option (Option String)
  nextResourceId : Nat
deriving DecidableEq

/-- `_use_token(self, value)`: store the token, set `_authenticated` to
`bool(value)`, and set the `Authorization` header to the token when truthy,
`''` otherwise.  The `Cookie` header and `_sessionid` are not touched. -/
def DRESTClient._use_token (c : DRESTClient) (value : Option String) :
    DRESTClient :=
  let c := { c with _token := some value, _authenticated := truthy value }
  let hv := if truthy value then value.getD "" else ""
  { c with headers := updateHeader c.headers "Authorization" hv }

/-- `_use_sessionid(self, value)`: store the session id, set `_authenticated`
to `bool(value)`, and set the `Cookie` header to `'sessionid=%s' % value`
when truthy, `''` otherwise.  The `Authorization` header and `_token` are
not touched. -/
def DRESTClient._use_sessionid (c : DRESTClient) (value : Option String) :
    DRESTClient :=
  let c := { c with _sessionid := some value, _authenticated := truthy value }
  let hv := if truthy value then "sessionid=" ++ value.getD "" else ""
  { c with headers := updateHeader c.headers "Cookie" hv }

/-- One credential-installing call made by `__init__`, recorded in order. -/
inductive CredOp where
  | useToken : Option String → CredOp
  | useSessionId : Option String → CredOp
deriving DecidableEq

/-- `__init__(self, host, version=None, client=None, scheme='https',
authentication=None)`.  `clientHeaders` are the headers the passed-in HTTP
client session already carries (empty for a fresh `requests.session()`).
Returns the constructed state together with the ordered list of
credential-installing calls the constructor performed. -/
def DRESTClient.init (host : String) (version : Option String)
    (clientHeaders : List (String × String)) (scheme : String)
    (authentication : Option PyDict) : DRESTClient × List CredOp :=
  let c : DRESTClient := {
    _host := host
    _version := version
    headers :=
      updateHeader
        (updateHeader clientHeaders "Content-Type" "application/json")
        "Accept" "application/json"
    _resources := []
    _scheme := scheme
    _authenticated := true
    _authentication := authentication
    _token := none
    _sessionid := none
    nextResourceId := 0 }
  if dictTruthy authentication then
    let c := { c with _authenticated := false }
    let d := authentication.getD []
    let token := dictGet d "token"
    let sessionid := dictGet d "sessionid"
    let step1 :=
      if truthy token then (c._use_token token, [CredOp.useToken token])
      else (c, [])
    let step2 :=
      if truthy sessionid then
        (step1.1._use_sessionid sessionid, [CredOp.useSessionId sessionid])
      else (step1.1, [])
    (step2.1, step1.2 ++ step2.2)
  else
    (c, [])

/-- `__getattr__(self, key)`: `key = key.lower(); return
self._resources.get(key, DRESTResource(self, key))`.  Python evaluates the
default argument eagerly, so a fresh `DRESTResource` is constructed on every
call (the allocation counter advances); the dict's entry, when present, is
what is returned.  Nothing in the class ever writes to `_resources`. -/
def DRESTClient.getattr (c : DRESTClient) (key : String) :
    DRESTResource × DRESTClient :=
  let key := strToLower key
  let fresh : DRESTResource := ⟨c.nextResourceId, key⟩
  let c := { c with nextResourceId := c.nextResourceId + 1 }
  match c._resources.find? (fun p => p.1 == key) with
  | some p => (p.2, c)
  | none => (fresh, c)

/-- Result of Python attribute lookup `self.<name>` at name level:
`field` when the name is in the instance dict, `method` when it is a class
attribute, `resource n` when `__getattr__` supplies a `DRESTResource` bound
to the lower-cased name, `error` for an `AttributeError` (never produced,
since `__getattr__` always returns). -/
inductive AttrResult where
  | field : AttrResult
  | method : AttrResult
  | resource : String → AttrResult
  | error : AttrResult
deriving DecidableEq

/-- The class attributes of `DRESTClient` (its methods). -/
def classAttrs : List String :=
  ["__init__", "__repr__", "_use_token", "_use_sessionid", "__getattr__",
   "_login", "_authenticate", "_build_url", "request"]

/-- The instance attributes assigned anywhere in the source: the eight
assigned in `__init__`, plus `_token` / `_sessionid` once `_use_token` /
`_use_sessionid` has run.  No code assigns `_username` or `_password`. -/
def instanceAttrNames (c : DRESTClient) : List String :=
  ["_host", "_version", "_client", "_resources", "_scheme",
   "_authenticated", "_authentication"]
  ++ (if c._token.isSome then ["_token"] else [])
  ++ (if c._sessionid.isSome then ["_sessionid"] else [])

/-- Python attribute lookup `self.<name>` at name level: instance dict
first, then the class, then `__getattr__` (which returns a `DRESTResource`
bound to `name.lower()`). -/
def DRESTClient.getattrName (c : DRESTClient) (name : String) : AttrResult :=
  if name ∈ instanceAttrNames c then AttrResult.field
  else if name ∈ classAttrs then AttrResult.method
  else AttrResult.resource (strToLower name)

/-- `_build_url(self, url, prefix=None)` (the keyword parameter `prefix` is
renamed `pre` here).  Normalizes `url` to start with `/`; when `prefix` is
truthy, normalizes it likewise and prepends it; composes
`'%s://%s%s' % (scheme, host, url)`. -/
def DRESTClient._build_url (c : DRESTClient) (url : String)
    (pre : Option String) : String :=
  let url := if strStartsWith url "/" then url else "/" ++ url
  let url :=
    if truthy pre then
      let p := pre.getD ""
      let p := if strStartsWith p "/" then p else "/" ++ p
      p ++ url
    else url
  c._scheme ++ "://" ++ c._host ++ url

/-- The Python exceptions the client code can raise. -/
inductive PyError where
  | authenticationFailed : Option String → PyError
  | doesNotExist : PyError
  | badRequest : PyError
  | typeError : String → PyError
  | httpError : Nat → PyError
deriving DecidableEq

/-- The `TypeError` raised when `_authenticate` calls
`self._login(self._username, self._password, raise_exception)`:
`_login(self, raise_exception=True)` accepts at most two positional
arguments but four are passed. -/
def loginArityMessage : String :=
  "_login() takes from 1 to 2 positional arguments but 4 were given"

/-- `_authenticate(self, raise_exception=True)`.  `response = None` and is
never reassigned.  When the client is not authenticated, the arguments
`self._username` / `self._password` are looked up (succeeding, via
`__getattr__`) and then the call `self._login(...)` itself raises a
`TypeError` for its arity, so control never reaches the
`AuthenticationFailed` raise; that raise, were it reached, could only carry
`'Unknown error'` since `response` is still `None`. -/
def DRESTClient._authenticate (c : DRESTClient) (raise_exception : Bool) :
    Except PyError Bool :=
  if !c._authenticated then
    Except.error (PyError.typeError loginArityMessage)
  else if raise_exception && !c._authenticated then
    Except.error (PyError.authenticationFailed (some "Unknown error"))
  else
    Except.ok c._authenticated

/-- A response from the external HTTP transport (`requests`). -/
structure HTTPResponse where
  status_code : Nat
  content : String
  text : String
  cookies : PyDict
deriving DecidableEq

/-- The request handed to `self._client.request(method, url, params, data)`,
including the session headers it carries. -/
structure HTTPRequest where
  method : String
  url : String
  params : Option PyDict
  data : Option PyDict
  headers : List (String × String)
deriving DecidableEq

/-- The wire request `request` issues:
`self._client.request(method, self._build_url(url, prefix=self._version),
params=params, data=data)` with the session's current headers. -/
def DRESTClient.issuedRequest (c : DRESTClient) (method url : String)
    (params data : Option PyDict) : HTTPRequest :=
  ⟨method, c._build_url url c._version, params, data, c.headers⟩

/-- The response mapping at the end of `request` (lines after the HTTP
call): 401 raises `AuthenticationFailed()`, 404 raises `DoesNotExist()`,
any other status `>= 400` raises `BadRequest()`, otherwise the body is
passed to the external `json.loads`. -/
def handleStatus {J : Type} (response : HTTPResponse)
    (jsonLoads : String → J) : Except PyError J :=
  if response.status_code == 401 then
    Except.error (PyError.authenticationFailed none)
  else if response.status_code == 404 then
    Except.error PyError.doesNotExist
  else if response.status_code ≥ 400 then
    Except.error PyError.badRequest
  else
    Except.ok (jsonLoads response.content)

/-- `request(self, method, url, params=None, data=None)`: first
`self._authenticate()` (an exception there propagates), then the HTTP call
through the external transport, then the status mapping. -/
def DRESTClient.request {J : Type} (c : DRESTClient) (method url : String)
    (params data : Option PyDict) (transport : HTTPRequest → HTTPResponse)
    (jsonLoads : String → J) : Except PyError J :=
  match c._authenticate true with
  | Except.error e => Except.error e
  | Except.ok _ =>
      handleStatus (transport (c.issuedRequest method url params data))
        jsonLoads

/-- The request `requests.post(...)` issued by `_login`. -/
structure LoginRequest where
  method : String
  url : String
  data : List (String × AttrResult)
  allow_redirects : Bool
deriving DecidableEq

/-- The POST `_login` issues: target `self._build_url(settings.AUTH_ENDPOINT)`
(the endpoint path comes from configuration outside `src/`, so it is a
parameter), body `{'login': username, 'password': password}` where the two
values are the results of the attribute reads `self._username` /
`self._password`, and `allow_redirects=False`. -/
def DRESTClient.loginRequest (c : DRESTClient) (authEndpoint : String) :
    LoginRequest :=
  { method := "POST"
    url := c._build_url authEndpoint none
    data := [("login", c.getattrName "_username"),
             ("password", c.getattrName "_password")]
    allow_redirects := false }

/-- `_login(self, raise_exception=True)`, modelled at its own definition
(as if invoked with the arity it declares).  `post` models `requests.post`.
After the POST, `response.raise_for_status()` raises `HTTPError` when the
status is a 4xx or 5xx (and `raise_exception` is set); otherwise
`self._use_sessionid(response.cookies.get('sessionid'))` installs the
session cookie. -/
def DRESTClient._login (c : DRESTClient) (raise_exception : Bool)
    (authEndpoint : String) (post : LoginRequest → HTTPResponse) :
    Except PyError DRESTClient :=
  let response := post (c.loginRequest authEndpoint)
  if raise_exception = true ∧ 400 ≤ response.status_code ∧
      response.status_code < 600 then
    Except.error (PyError.httpError response.status_code)
  else
    Except.ok (c._use_sessionid (dictGet response.cookies "sessionid"))

/-- Normalization used in the `_build_url` specification: ensure a leading
slash. -/
def normSlash (s : String) : String :=
  if strStartsWith s "/" then s else "/" ++ s

theorem find?_replace_of_any (t : List (String × String)) (k v : String)
    (h : t.any (fun p => p.1 == k) = true) :
    (t.map (fun p => if p.1 == k then (k, v) else p)).find?
      (fun p => p.1 == k) = some (k, v) := by
  induction t with
  | nil => simp at h
  | cons a t ih =>
    cases ha : (a.1 == k) with
    | true =>
      have hfa : (if a.1 == k then ((k, v) : String × String) else a)
          = (k, v) := if_pos ha
      rw [List.map_cons, hfa, List.find?_cons_of_pos _ (by simp)]
    | false =>
      have hfa : (if a.1 == k then ((k, v) : String × String) else a)
          = a := by
        refine if_neg ?hc
        rw [ha]
        exact Bool.false_ne_true
      have ht : t.any (fun p => p.1 == k) = true := by
        simp only [List.any_cons, ha, Bool.false_or] at h
        exact h
      rw [List.map_cons, hfa, List.find?_cons_of_neg, ih ht]
      rw [ha]
      exact Bool.false_ne_true

theorem find?_append_single_of_any_false (t : List (String × String))
    (k v : String) (h : t.any (fun p => p.1 == k) = false) :
    (t ++ [(k, v)]).find? (fun p => p.1 == k) = some (k, v) := by
  rw [List.find?_append]
  have hn : t.find? (fun p => p.1 == k) = none := by
    rw [List.find?_eq_none]
    intro x hx
    exact (List.any_eq_false.mp h) x hx
  simp [hn]

/-- After `headers.update({k: v})`, the header `k` reads `v`. -/
theorem getHeader_updateHeader_self (hs : List (String × String))
    (k v : String) : getHeader (updateHeader hs k v) k = some v := by
  unfold getHeader updateHeader
  split
  · rename_i hany
    rw [find?_replace_of_any hs k v hany]
    rfl
  · rename_i hany
    rw [find?_append_single_of_any_false hs k v (Bool.of_not_eq_true hany)]
    rfl

theorem find?_replace_other (t : List (String × String)) (k k' v : String)
    (h : k' ≠ k) :
    (t.map (fun p => if p.1 == k then (k, v) else p)).find?
      (fun p => p.1 == k') = t.find? (fun p => p.1 == k') := by
  induction t with
  | nil => simp
  | cons a t ih =>
    cases ha : (a.1 == k) with
    | true =>
      have ha' : a.1 = k := by simpa using ha
      have hfa : (if a.1 == k then ((k, v) : String × String) else a)
          = (k, v) := if_pos ha
      have hk : (k == k') = false := beq_eq_false_iff_ne.mpr (Ne.symm h)
      have ha2 : (a.1 == k') = false := by rw [ha']; exact hk
      rw [List.map_cons, hfa, List.find?_cons_of_neg, ih,
        List.find?_cons_of_neg]
      · rw [ha2]
        exact Bool.false_ne_true
      · show ¬((k, v).1 == k') = true
        rw [hk]
        exact Bool.false_ne_true
    | false =>
      have hfa : (if a.1 == k then ((k, v) : String × String) else a)
          = a := by
        refine if_neg ?hc
        rw [ha]
        exact Bool.false_ne_true
      rw [List.map_cons, hfa]
      cases hpa : (a.1 == k') with
      | true =>
        rw [@List.find?_cons_of_pos _ (fun p => p.1 == k') a _ hpa,
          @List.find?_cons_of_pos _ (fun p => p.1 == k') a _ hpa]
      | false =>
        rw [List.find?_cons_of_neg, List.find?_cons_of_neg, ih]
        · rw [hpa]
          exact Bool.false_ne_true
        · rw [hpa]
          exact Bool.false_ne_true

theorem find?_append_single_other (t : List (String × String))
    (k k' v : String) (h : k' ≠ k) :
    (t ++ [(k, v)]).find? (fun p => p.1 == k')
      = t.find? (fun p => p.1 == k') := by
  rw [List.find?_append]
  have hk : (k == k') = false := beq_eq_false_iff_ne.mpr (Ne.symm h)
  simp [hk, Option.or_none]

/-- `headers.update({k: v})` leaves every other header unchanged. -/
theorem getHeader_updateHeader_other (hs : List (String × String))
    (k k' v : String) (h : k' ≠ k) :
    getHeader (updateHeader hs k v) k' = getHeader hs k' := by
  unfold getHeader updateHeader
  split
  · rw [find?_replace_other hs k k' v h]
  · rw [find?_append_single_other hs k k' v h]

/-- Full evaluation of the constructor for `authentication={'token': t}`
with a non-empty token. -/
theorem initToken_eval (host : String) (version : Option String)
    (scheme : String) (t : String) (ht : t ≠ "") :
    DRESTClient.init host version [] scheme (some [("token", t)])
      = (⟨host, version,
          [("Content-Type", "application/json"),
           ("Accept", "application/json"), ("Authorization", t)],
          [], scheme, true, some [("token", t)], some (some t), none, 0⟩,
         [CredOp.useToken (some t)]) := by
  have h1 : (t == "") = false := beq_eq_false_iff_ne.mpr ht
  simp [DRESTClient.init, dictTruthy, dictGet, truthy,
    DRESTClient._use_token, updateHeader, h1]

/-- Full evaluation of the constructor for
`authentication={'token': t, 'sessionid': s}`, both non-empty. -/
theorem initTokenSession_eval (host : String) (version : Option String)
    (scheme : String) (t s : String) (ht : t ≠ "") (hs : s ≠ "") :
    DRESTClient.init host version [] scheme
        (some [("token", t), ("sessionid", s)])
      = (⟨host, version,
          [("Content-Type", "application/json"),
           ("Accept", "application/json"), ("Authorization", t),
           ("Cookie", "sessionid=" ++ s)],
          [], scheme, true, some [("token", t), ("sessionid", s)],
          some (some t), some (some s), 0⟩,
         [CredOp.useToken (some t), CredOp.useSessionId (some s)]) := by
  have h1 : (t == "") = false := beq_eq_false_iff_ne.mpr ht
  have h2 : (s == "") = false := beq_eq_false_iff_ne.mpr hs
  simp [DRESTClient.init, dictTruthy, dictGet, truthy,
    DRESTClient._use_token, DRESTClient._use_sessionid, updateHeader, h1, h2]

/-- Full evaluation of the constructor for `authentication={'sessionid': s}`
with a non-empty session id. -/
theorem initSession_eval (host : String) (version : Option String)
    (scheme : String) (s : String) (hs : s ≠ "") :
    DRESTClient.init host version [] scheme (some [("sessionid", s)])
      = (⟨host, version,
          [("Content-Type", "application/json"),
           ("Accept", "application/json"),
           ("Cookie", "sessionid=" ++ s)],
          [], scheme, true, some [("sessionid", s)], none, some (some s), 0⟩,
         [CredOp.useSessionId (some s)]) := by
  have h2 : (s == "") = false := beq_eq_false_iff_ne.mpr hs
  simp [DRESTClient.init, dictTruthy, dictGet, truthy,
    DRESTClient._use_sessionid, updateHeader, h2]

/-- C7: `_build_url` normalizes the path to start with `/`, prepends the
normalized version prefix when one is given (non-empty), and composes
`scheme://host<prefix><path>`. -/
theorem buildUrl_spec (c : DRESTClient) (url : String) :
    c._build_url url none = c._scheme ++ "://" ++ c._host ++ normSlash url ∧
    ∀ p : String, p ≠ "" →
      c._build_url url (some p)
        = c._scheme ++ "://" ++ c._host ++ (normSlash p ++ normSlash url) := by
  constructor
  · simp [DRESTClient._build_url, truthy, normSlash]
  · intro p hp
    have h1 : (p == "") = false := beq_eq_false_iff_ne.mpr hp
    simp [DRESTClient._build_url, truthy, normSlash, h1]

/-- Witness for C7: a concrete path and version prefix. -/
theorem buildUrl_spec_witness :
    (DRESTClient.init "my.api.io" none [] "https" none).1._build_url
        "users" (some "v2") = "https://my.api.io/v2/users" := by
  have h := buildUrl_spec (DRESTClient.init "my.api.io" none [] "https"
    none).1 "users"
  rw [h.2 "v2" (by decide)]
  decide

/-- C3 counterexample: with no authentication argument the constructor
leaves `_authenticated = true` — the client is *not* in the Unauthenticated
state the claim asserts. -/
theorem init_no_auth_not_unauthenticated :
    (DRESTClient.init "my.api.io" none [] "https" none).1._authenticated
      = true := by
  rfl

/-- C3 (amended): construction always installs the JSON
`Content-Type`/`Accept` headers; with *no* authentication argument the
client is marked Authenticated (`_authenticated = true`, so no login is
ever attempted); with credentials supplied — a non-empty token, a non-empty
sessionid, or both — the constructor installs them and marks the client
Authenticated. -/
theorem init_headers_and_auth_state (host : String) (version : Option String)
    (scheme : String) (t s : String) (ht : t ≠ "") (hs : s ≠ "") :
    (getHeader (DRESTClient.init host version [] scheme none).1.headers
        "Content-Type" = some "application/json" ∧
     getHeader (DRESTClient.init host version [] scheme none).1.headers
        "Accept" = some "application/json" ∧
     (DRESTClient.init host version [] scheme none).1._authenticated
        = true) ∧
    (getHeader (DRESTClient.init host version [] scheme
          (some [("token", t)])).1.headers "Content-Type"
        = some "application/json" ∧
     getHeader (DRESTClient.init host version [] scheme
          (some [("token", t)])).1.headers "Accept"
        = some "application/json" ∧
     (DRESTClient.init host version [] scheme
          (some [("token", t)])).1._authenticated = true ∧
     getHeader (DRESTClient.init host version [] scheme
          (some [("token", t)])).1.headers "Authorization" = some t) ∧
    (getHeader (DRESTClient.init host version [] scheme
          (some [("sessionid", s)])).1.headers "Content-Type"
        = some "application/json" ∧
     getHeader (DRESTClient.init host version [] scheme
          (some [("sessionid", s)])).1.headers "Accept"
        = some "application/json" ∧
     (DRESTClient.init host version [] scheme
          (some [("sessionid", s)])).1._authenticated = true ∧
     getHeader (DRESTClient.init host version [] scheme
          (some [("sessionid", s)])).1.headers "Cookie"
        = some ("sessionid=" ++ s)) ∧
    (getHeader (DRESTClient.init host version [] scheme
          (some [("token", t), ("sessionid", s)])).1.headers "Content-Type"
        = some "application/json" ∧
     getHeader (DRESTClient.init host version [] scheme
          (some [("token", t), ("sessionid", s)])).1.headers "Accept"
        = some "application/json" ∧
     (DRESTClient.init host version [] scheme
          (some [("token", t), ("sessionid", s)])).1._authenticated = true ∧
     getHeader (DRESTClient.init host version [] scheme
          (some [("token", t), ("sessionid", s)])).1.headers "Authorization"
        = some t ∧
     getHeader (DRESTClient.init host version [] scheme
          (some [("token", t), ("sessionid", s)])).1.headers "Cookie"
        = some ("sessionid=" ++ s)) := by
  refine ⟨⟨rfl, rfl, rfl⟩, ?_, ?_, ?_⟩
  · rw [initToken_eval host version scheme t ht]
    exact ⟨rfl, rfl, rfl, rfl⟩
  · rw [initSession_eval host version scheme s hs]
    exact ⟨rfl, rfl, rfl, rfl⟩
  · rw [initTokenSession_eval host version scheme t s ht hs]
    exact ⟨rfl, rfl, rfl, rfl, rfl⟩

/-- Witness for C3 (amended) at a concrete token and session id. -/
theorem init_headers_and_auth_state_witness :
    (getHeader (DRESTClient.init "my.api.io" none [] "https"
        (some [("token", "T")])).1.headers "Authorization" = some "T" ∧
     (DRESTClient.init "my.api.io" none [] "https"
        (some [("token", "T")])).1._authenticated = true) ∧
    (getHeader (DRESTClient.init "my.api.io" none [] "https"
        (some [("sessionid", "S")])).1.headers "Cookie"
      = some ("sessionid=" ++ "S") ∧
     (DRESTClient.init "my.api.io" none [] "https"
        (some [("sessionid", "S")])).1._authenticated = true) := by
  have h := init_headers_and_auth_state "my.api.io" none "https" "T" "S"
    (by decide) (by decide)
  exact ⟨⟨h.2.1.2.2.2, h.2.1.2.2.1⟩, ⟨h.2.2.1.2.2.2, h.2.2.1.2.2.1⟩⟩

/-- C5 counterexample: after `_use_token('T')` and then `_use_sessionid('S')`
the `Authorization` header still carries `'T'` — installing the session id
does not clear the token credential, so both are active at once. -/
theorem use_sessionid_keeps_authorization :
    getHeader
        (((DRESTClient.init "my.api.io" none [] "https" none).1._use_token
            (some "T"))._use_sessionid (some "S")).headers "Authorization"
      = some "T" ∧
    getHeader
        (((DRESTClient.init "my.api.io" none [] "https" none).1._use_token
            (some "T"))._use_sessionid (some "S")).headers "Cookie"
      = some "sessionid=S" := by
  exact ⟨rfl, rfl⟩

/-- C5 (amended): `_use_token(v)` with non-empty `v` makes the token the
active credential (`Authorization` header set, state Authenticated) but
leaves the `Cookie` header and the stored `_sessionid` untouched;
symmetrically `_use_sessionid(v)` sets the `Cookie` header and leaves the
`Authorization` header and `_token` untouched.  Neither operation clears
the other credential. -/
theorem use_token_use_sessionid_state (c : DRESTClient) (v : String)
    (h : v ≠ "") :
    ((c._use_token (some v))._authenticated = true ∧
     getHeader (c._use_token (some v)).headers "Authorization" = some v ∧
     getHeader (c._use_token (some v)).headers "Cookie"
       = getHeader c.headers "Cookie" ∧
     (c._use_token (some v))._sessionid = c._sessionid) ∧
    ((c._use_sessionid (some v))._authenticated = true ∧
     getHeader (c._use_sessionid (some v)).headers "Cookie"
       = some ("sessionid=" ++ v) ∧
     getHeader (c._use_sessionid (some v)).headers "Authorization"
       = getHeader c.headers "Authorization" ∧
     (c._use_sessionid (some v))._token = c._token) := by
  have hv : truthy (some v) = true := by
    show (!(v == "")) = true
    rw [beq_eq_false_iff_ne.mpr h]
    rfl
  refine ⟨⟨?_, ?_, ?_, ?_⟩, ?_, ?_, ?_, ?_⟩
  · simp [DRESTClient._use_token, hv]
  · simp [DRESTClient._use_token, hv, getHeader_updateHeader_self]
  · simp only [DRESTClient._use_token, hv, if_true]
    exact getHeader_updateHeader_other _ _ _ _ (by decide)
  · simp [DRESTClient._use_token]
  · simp [DRESTClient._use_sessionid, hv]
  · simp [DRESTClient._use_sessionid, hv, getHeader_updateHeader_self]
  · simp only [DRESTClient._use_sessionid, hv, if_true]
    exact getHeader_updateHeader_other _ _ _ _ (by decide)
  · simp [DRESTClient._use_sessionid]

/-- Witness for C5 (amended) on a concrete client and value. -/
theorem use_token_use_sessionid_state_witness :
    getHeader ((DRESTClient.init "my.api.io" none [] "https"
        none).1._use_token (some "T")).headers "Authorization" = some "T" := by
  exact ((use_token_use_sessionid_state
    (DRESTClient.init "my.api.io" none [] "https" none).1 "T"
    (by decide)).1).2.1

/-- C6: on a client that is not Authenticated (here constructed with a
truthy authentication dict carrying an empty token), `_authenticate` with
`raise_exception=True` raises the arity `TypeError` of its `_login` call;
the `AuthenticationFailed` raise — whose message, moreover, could only ever
be `'Unknown error'` because the local `response` is never reassigned — is
unreachable. -/
theorem authenticate_unauthenticated_typeerror :
    (DRESTClient.init "my.api.io" none [] "https"
        (some [("token", "")])).1._authenticate true
      = Except.error (PyError.typeError loginArityMessage) := by
  rfl

/-- C2: resource lookup lower-cases the name but is *not* cached: the
`_resources` dict is never written (`dict.get(key, default)` does not
insert), so `client.Users` followed by `client.users` yields two distinct
`DRESTResource` objects — both bound to the lower-cased name `'users'` —
and the registry stays empty. -/
theorem resource_lookup_not_cached :
    ((DRESTClient.init "my.api.io" none [] "https" none).1.getattr
        "Users").1.name = "users" ∧
    (((DRESTClient.init "my.api.io" none [] "https" none).1.getattr
        "Users").2.getattr "users").1.name = "users" ∧
    ((DRESTClient.init "my.api.io" none [] "https" none).1.getattr
        "Users").1
      ≠ (((DRESTClient.init "my.api.io" none [] "https" none).1.getattr
        "Users").2.getattr "users").1 ∧
    (((DRESTClient.init "my.api.io" none [] "https" none).1.getattr
        "Users").2.getattr "users").2._resources = [] := by
  refine ⟨rfl, rfl, ?_, rfl⟩
  decide

/-- C1: whenever `request` reaches the HTTP exchange (the client is
Authenticated, so `_authenticate` succeeds), the response status is mapped
exactly as specified: 401 raises `AuthenticationFailed`, 404 raises
`DoesNotExist`, any other status ≥ 400 raises `BadRequest`, and any status
< 400 returns the JSON-decoded response body. -/
theorem request_status_mapping {J : Type} (c : DRESTClient)
    (hauth : c._authenticated = true) (method url : String)
    (params data : Option PyDict) (transport : HTTPRequest → HTTPResponse)
    (jsonLoads : String → J) :
    ((transport (c.issuedRequest method url params data)).status_code = 401 →
      c.request method url params data transport jsonLoads
        = Except.error (PyError.authenticationFailed none)) ∧
    ((transport (c.issuedRequest method url params data)).status_code = 404 →
      c.request method url params data transport jsonLoads
        = Except.error PyError.doesNotExist) ∧
    ((transport (c.issuedRequest method url params data)).status_code ≥ 400 →
      (transport (c.issuedRequest method url params data)).status_code ≠ 401 →
      (transport (c.issuedRequest method url params data)).status_code ≠ 404 →
      c.request method url params data transport jsonLoads
        = Except.error PyError.badRequest) ∧
    ((transport (c.issuedRequest method url params data)).status_code < 400 →
      c.request method url params data transport jsonLoads
        = Except.ok (jsonLoads
            (transport (c.issuedRequest method url params data)).content)) := by
  have hA : c._authenticate true = Except.ok true := by
    unfold DRESTClient._authenticate
    rw [hauth]
    rfl
  unfold DRESTClient.request
  rw [hA]
  refine ⟨?_, ?_, ?_, ?_⟩
  · intro h1
    simp [handleStatus, h1]
  · intro h4
    simp [handleStatus, h4]
  · intro hge h1 h4
    simp [handleStatus, beq_eq_false_iff_ne.mpr h1,
      beq_eq_false_iff_ne.mpr h4, hge]
  · intro hlt
    have n1 : (transport (c.issuedRequest method url params
        data)).status_code ≠ 401 := by omega
    have n4 : (transport (c.issuedRequest method url params
        data)).status_code ≠ 404 := by omega
    have n3 : ¬((transport (c.issuedRequest method url params
        data)).status_code ≥ 400) := by omega
    simp [handleStatus, beq_eq_false_iff_ne.mpr n1,
      beq_eq_false_iff_ne.mpr n4, n3]

/-- Witness for C1: a concrete authenticated client, a transport answering
200, and the identity decoder. -/
theorem request_status_mapping_witness :
    (DRESTClient.init "my.api.io" none [] "https" none).1.request "GET"
        "users" none none (fun _ => ⟨200, "body", "body", []⟩)
        (fun s => s)
      = Except.ok "body" := by
  have h := request_status_mapping
    (DRESTClient.init "my.api.io" none [] "https" none).1 rfl "GET" "users"
    none none (fun _ => ⟨200, "body", "body", []⟩) (fun s => s)
  exact h.2.2.2 (by decide)

/-- C4: a client constructed with `authentication={'token': T}`, `T`
non-empty, is Authenticated immediately after construction; `_authenticate`
then succeeds without entering the login path (which, in this code, always
raises — so a successful `_authenticate` implies no login call was made);
and every request it issues carries the header `Authorization: T`.  The
last conjunct exhibits `request` as exactly the HTTP exchange followed by
the status mapping. -/
theorem token_client_requests_authorized {J : Type} (host : String)
    (version : Option String) (scheme : String) (t : String) (ht : t ≠ "")
    (method url : String) (params data : Option PyDict)
    (transport : HTTPRequest → HTTPResponse) (jsonLoads : String → J) :
    (DRESTClient.init host version [] scheme
        (some [("token", t)])).1._authenticated = true ∧
    (DRESTClient.init host version [] scheme
        (some [("token", t)])).1._authenticate true = Except.ok true ∧
    getHeader ((DRESTClient.init host version [] scheme
        (some [("token", t)])).1.issuedRequest method url params
          data).headers "Authorization" = some t ∧
    (DRESTClient.init host version [] scheme
        (some [("token", t)])).1.request method url params data transport
        jsonLoads
      = handleStatus (transport ((DRESTClient.init host version [] scheme
          (some [("token", t)])).1.issuedRequest method url params data))
          jsonLoads := by
  rw [initToken_eval host version scheme t ht]
  exact ⟨rfl, rfl, rfl, rfl⟩

/-- Witness for C4 at concrete inputs. -/
theorem token_client_requests_authorized_witness :
    (DRESTClient.init "my.api.io" none [] "https"
        (some [("token", "T")])).1._authenticated = true ∧
    getHeader ((DRESTClient.init "my.api.io" none [] "https"
        (some [("token", "T")])).1.issuedRequest "GET" "users" none
          none).headers "Authorization" = some "T" := by
  have h := @token_client_requests_authorized String "my.api.io" none
    "https" "T" (by decide) "GET" "users" none none
    (fun _ => ⟨200, "body", "body", []⟩) (fun s => s)
  exact ⟨h.1, h.2.2.1⟩

/-- C8: the login request `_login` issues is a POST to the configured
authentication endpoint, its body carries exactly the fields `login` and
`password`, redirect following is disabled, and on a successful response
the `sessionid` cookie is installed as the active credential via
`_use_sessionid`. -/
theorem login_request_spec (c : DRESTClient) (authEndpoint : String)
    (raise : Bool) (post : LoginRequest → HTTPResponse) :
    (c.loginRequest authEndpoint).method = "POST" ∧
    (c.loginRequest authEndpoint).url = c._build_url authEndpoint none ∧
    (c.loginRequest authEndpoint).data.map Prod.fst
      = ["login", "password"] ∧
    (c.loginRequest authEndpoint).allow_redirects = false ∧
    ((post (c.loginRequest authEndpoint)).status_code < 400 →
      c._login raise authEndpoint post
        = Except.ok (c._use_sessionid
            (dictGet (post (c.loginRequest authEndpoint)).cookies
              "sessionid"))) := by
  refine ⟨rfl, rfl, rfl, rfl, ?_⟩
  intro h
  have hne : ¬(raise = true ∧
      400 ≤ (post (c.loginRequest authEndpoint)).status_code ∧
      (post (c.loginRequest authEndpoint)).status_code < 600) := by
    rintro ⟨-, h4, -⟩
    omega
  simp only [DRESTClient._login]
  rw [if_neg hne]

/-- Witness for C8: a concrete client and a 200 response carrying a
`sessionid` cookie. -/
theorem login_request_spec_witness :
    (DRESTClient.init "my.api.io" none [] "https" none).1._login true
        "accounts/login" (fun _ => ⟨200, "", "", [("sessionid", "abc")]⟩)
      = Except.ok ((DRESTClient.init "my.api.io" none [] "https"
          none).1._use_sessionid (some "abc")) := by
  have h := login_request_spec
    (DRESTClient.init "my.api.io" none [] "https" none).1 "accounts/login"
    true (fun _ => ⟨200, "", "", [("sessionid", "abc")]⟩)
  exact h.2.2.2.2 (by decide)

/-- C9 counterexample: on a freshly constructed client the attribute read
`self._username` does not fail — `__getattr__` intercepts it and returns a
resource handle, contradicting the claim that the login path's attribute
reads fail. -/
theorem username_read_does_not_fail :
    (DRESTClient.init "my.api.io" none [] "https" none).1.getattrName
        "_username" = AttrResult.resource "_username" ∧
    (DRESTClient.init "my.api.io" none [] "https" none).1.getattrName
        "_username" ≠ AttrResult.error := by
  refine ⟨rfl, ?_⟩
  decide

/-- C9 (amended): `_username` and `_password` are indeed never assigned by
any constructor or operation — they are not among the instance attributes
of any client state — but reading them does not fail: `__getattr__`
intercepts the lookup and yields a `DRESTResource`.  On a client that is
not Authenticated, `request` instead dies on the arity `TypeError` of the
`_login` call inside `_authenticate`, so the successful-login branch is
unreachable. -/
theorem username_password_unassigned_login_unreachable {J : Type}
    (c : DRESTClient) (hna : c._authenticated = false) (method url : String)
    (params data : Option PyDict) (transport : HTTPRequest → HTTPResponse)
    (jsonLoads : String → J) :
    ("_username" ∉ instanceAttrNames c ∧
     "_password" ∉ instanceAttrNames c) ∧
    (c.getattrName "_username" = AttrResult.resource "_username" ∧
     c.getattrName "_password" = AttrResult.resource "_password") ∧
    c.request method url params data transport jsonLoads
      = Except.error (PyError.typeError loginArityMessage) := by
  have h1 : "_username" ∉ instanceAttrNames c := by
    unfold instanceAttrNames
    cases hc : c._token <;> cases hcs : c._sessionid <;> simp
  have h2 : "_password" ∉ instanceAttrNames c := by
    unfold instanceAttrNames
    cases hc : c._token <;> cases hcs : c._sessionid <;> simp
  have h3 : "_username" ∉ classAttrs := by decide
  have h4 : "_password" ∉ classAttrs := by decide
  have hA : c._authenticate true
      = Except.error (PyError.typeError loginArityMessage) := by
    unfold DRESTClient._authenticate
    rw [hna]
    rfl
  refine ⟨⟨h1, h2⟩, ⟨?_, ?_⟩, ?_⟩
  · unfold DRESTClient.getattrName
    rw [if_neg h1, if_neg h3]
    rfl
  · unfold DRESTClient.getattrName
    rw [if_neg h2, if_neg h4]
    rfl
  · unfold DRESTClient.request
    rw [hA]

/-- Witness for C9 (amended): a concrete non-Authenticated client. -/
theorem username_password_unassigned_login_unreachable_witness :
    (DRESTClient.init "my.api.io" none [] "https"
        (some [("token", "")])).1.request "GET" "users" none none
        (fun _ => ⟨200, "body", "body", []⟩) (fun s => s)
      = Except.error (PyError.typeError loginArityMessage) := by
  have h := @username_password_unassigned_login_unreachable String
    (DRESTClient.init "my.api.io" none [] "https"
      (some [("token", "")])).1 rfl "GET" "users" none none
    (fun _ => ⟨200, "body", "body", []⟩) (fun s => s)
  exact h.2.2

/-- C10: when the authentication mapping carries both a non-empty token and
a non-empty sessionid, the constructor installs both credential headers —
`Authorization` from the token, `Cookie` from the sessionid — applying the
token first and the sessionid second, and the resulting client is
Authenticated. -/
theorem init_token_and_sessionid (host : String) (version : Option String)
    (scheme : String) (t s : String) (ht : t ≠ "") (hs : s ≠ "") :
    (DRESTClient.init host version [] scheme
        (some [("token", t), ("sessionid", s)])).2
      = [CredOp.useToken (some t), CredOp.useSessionId (some s)] ∧
    getHeader (DRESTClient.init host version [] scheme
        (some [("token", t), ("sessionid", s)])).1.headers "Authorization"
      = some t ∧
    getHeader (DRESTClient.init host version [] scheme
        (some [("token", t), ("sessionid", s)])).1.headers "Cookie"
      = some ("sessionid=" ++ s) ∧
    (DRESTClient.init host version [] scheme
        (some [("token", t), ("sessionid", s)])).1._authenticated
      = true := by
  rw [initTokenSession_eval host version scheme t s ht hs]
  exact ⟨rfl, rfl, rfl, rfl⟩

/-- Witness for C10 at concrete credentials. -/
theorem init_token_and_sessionid_witness :
    (DRESTClient.init "my.api.io" none [] "https"
        (some [("token", "T"), ("sessionid", "S")])).2
      = [CredOp.useToken (some "T"), CredOp.useSessionId (some "S")] ∧
    (DRESTClient.init "my.api.io" none [] "https"
        (some [("token", "T"), ("sessionid", "S")])).1._authenticated
      = true := by
  have h := init_token_and_sessionid "my.api.io" none "https" "T" "S"
    (by decide) (by decide)
  exact ⟨h.1, h.2.2.2⟩

end DynamicRest
